import Mathlib

/-!
Verification development for the colcon-in-container provider layer
(src/colcon_in_container/providers/docker.py, provider_factory.py and
src/colcon_in_container/verb/build_in_container.py).

Shallow embedding conventions:
  * the Docker backend is modelled by explicit data (the set of locally
    present image names as a list of strings, a container status trace as a
    function from model time to a status string, exit codes of in-instance
    commands as integers);
  * side-effecting backend calls are recorded as explicit action values, in
    the order the source issues them;
  * exceptions become an error inductive returned through Except or carried
    in result values;
  * wall-clock time is modelled by natural numbers: time.sleep(1.0) advances
    the clock by one unit and time.time() reads it.
-/

namespace ColconInContainer

/-- Errors raised by the source code. The providerXxx constructors model the
colcon_in_container.providers.exceptions classes; valueError and
notADirectoryError model the python builtins of the same names. -/
inductive PyError where
  | providerClientError (msg : String)
  | providerNotConfiguredError (msg : String)
  | providerNotRegisteredError (name : String)
  | notADirectoryError (msg : String)
  | valueError (msg : String)
deriving DecidableEq

/-- Outcome of _wait_for_container_status: normal return, a ValueError raised
on argument validation, or the ProviderClientError raised on time-out (which
reports the last observed status). -/
inductive WaitOutcome where
  | ok : WaitOutcome
  | valueError (msg : String) : WaitOutcome
  | timeoutClientError (lastStatus : String) : WaitOutcome
deriving DecidableEq

/-- Result of a status wait together with the backend interaction counts:
how many container.reload() calls and how many time.sleep(1.0) calls were
performed. The number of sleeps equals the elapsed model time. -/
structure WaitResult where
  outcome : WaitOutcome
  reloads : Nat
  sleeps : Nat
deriving DecidableEq

/-- The while loop of _wait_for_container_status (docker.py lines 292 to 295):
  while not (container.status in status) and (time.time() - t_start) < t_timeout:
      time.sleep(1.0)
      container.reload()
The loop guard is checked against the CURRENT clock; each iteration sleeps one
unit and reloads. Returns the status observed when the loop exits and the
number of sleeps performed. The trace argument models container.status as read
back by container.reload() at a given clock value. The fuel argument makes the
recursion structural; the caller passes tTimeout + 1 which strictly exceeds the
number of iterations the guard admits when the clock starts at tStart, so the
fuel-exhaustion branch is unreachable and the guard alone decides termination,
exactly as in the source. -/
def waitLoop (trace : Nat → String) (sset : List String) (tStart tTimeout : Nat) :
    Nat → Nat → String × Nat
  | clock, 0 => (trace clock, 0)
  | clock, fuel + 1 =>
    if trace clock ∈ sset ∨ ¬ (clock - tStart < tTimeout) then (trace clock, 0)
    else
      let r := waitLoop trace sset tStart tTimeout (clock + 1) fuel
      (r.1, r.2 + 1)

/-- Model of _wait_for_container_status (docker.py lines 282 to 298).
The container argument is the container handle: none models a falsy container
(raises ValueError, source line 283); some trace is a live handle whose
reload() samples the given status trace at the current clock. timeout is an
integer model of the float timeout parameter. tStart models the epoch value
returned by time.time() at entry. Note the source computes
t_timeout = t_start + timeout and then compares the ELAPSED time
time.time() - t_start against that ABSOLUTE deadline value; the model
reproduces this faithfully: the loop continues while clock - tStart <
tStart + timeout.toNat. -/
def waitForContainerStatus (container : Option (Nat → String)) (sset : List String)
    (tStart : Nat) (timeout : Int) : WaitResult :=
  match container with
  | none => ⟨WaitOutcome.valueError "No container", 0, 0⟩
  | some trace =>
    if timeout < 0 then
      ⟨WaitOutcome.valueError "timeout cannot be negative", 0, 0⟩
    else
      let tTimeout := tStart + timeout.toNat
      let r := waitLoop trace sset tStart tTimeout tStart (tTimeout + 1)
      if r.1 ∈ sset then ⟨WaitOutcome.ok, r.2 + 1, r.2⟩
      else ⟨WaitOutcome.timeoutClientError r.1, r.2 + 1, r.2⟩

/-- One member of a tar archive: its stored name (as a list of path segments,
which may contain ".." components), the size recorded in the header and the
payload bytes (bytes modelled as naturals). -/
structure TarEntry where
  name : List String
  size : Nat
  data : List Nat
deriving DecidableEq

/-- Resolution of a relative entry name against a directory, with the
normalisation semantics of os.path.join followed by normpath that the tarfile
module uses when extracting: ".." pops one directory, "." and empty segments
are dropped, other segments descend. The result is the number of levels the
final path ends up ABOVE the starting directory together with the remaining
segments below that point. The accumulator stack holds the segments descended
so far, in reverse. -/
def resolveSegments : List String → Nat → List String → Nat × List String
  | [], up, stack => (up, stack.reverse)
  | s :: rest, up, stack =>
    if s = ".." then
      match stack with
      | [] => resolveSegments rest (up + 1) []
      | _ :: tail => resolveSegments rest up tail
    else if s = "." ∨ s = "" then resolveSegments rest up stack
    else resolveSegments rest up (s :: stack)

/-- Resolved location of a tar entry name relative to the extraction root:
levels above the root paired with the segments below that ancestor. -/
def resolveEntryPath (segs : List String) : Nat × List String :=
  resolveSegments segs 0 []

/-- Absolute location of a resolved entry when extracting under dest: climb
the recorded number of levels up from dest, then append the segments. -/
def destFinalPath (dest : List String) (resolved : Nat × List String) : List String :=
  dest.take (dest.length - resolved.1) ++ resolved.2

/-- A path is inside the destination root when the root is a prefix of it.
This mirrors the startswith check of the tarfile data filter on the resolved
real path of the extraction target. -/
def insideDest (dest : List String) (p : List String) : Bool :=
  dest.isPrefixOf p

/-- Model of tarfile.extractall over a parsed archive. Each entry is written
at its resolved location under dest. When useDataFilter is true (the
filter="data" argument), an entry whose resolved location is not inside dest
raises OutsideDestinationError, aborting extraction there (entries already
processed stay written). Returns the performed writes, as (absolute path,
payload) pairs in extraction order, and the error if one was raised. -/
def extractAll (useDataFilter : Bool) (dest : List String) :
    List TarEntry → List (List String × List Nat) × Option String
  | [] => ([], none)
  | e :: rest =>
    let target := destFinalPath dest (resolveEntryPath e.name)
    if useDataFilter && !(insideDest dest target) then
      ([], some "OutsideDestinationError")
    else
      let r := extractAll useDataFilter dest rest
      ((target, e.data) :: r.1, r.2)

/-- Extraction step of _recursive_get (docker.py lines 337 to 341): on Python
3.12 and later the archive is extracted with filter="data"; on older runtimes
tarfile.extractall runs without any filter, writing every entry at its
resolved location even when that escapes the destination. The transport part
(streaming the archive bytes from container.get_archive into a buffer) is
abstracted away: the model receives the parsed archive members directly. -/
def recursiveGetExtract (pyAtLeast312 : Bool) (dest : List String)
    (entries : List TarEntry) : List (List String × List Nat) × Option String :=
  if pyAtLeast312 then extractAll true dest entries
  else extractAll false dest entries

/-- Splits a list of characters into the path segments delimited by the slash
character. -/
def splitSegsAux : List Char → List Char → List String
  | [], acc => [String.mk acc.reverse]
  | c :: rest, acc =>
    if c = '/' then String.mk acc.reverse :: splitSegsAux rest []
    else splitSegsAux rest (c :: acc)

/-- Final segment of a path string, modelling pathlib.Path(p).name as used by
_write_in_instance (docker.py line 253): the last slash-separated segment,
ignoring empty and "." segments. -/
def pathName (p : String) : String :=
  ((splitSegsAux p.toList []).filter (fun s => decide (s ≠ "" ∧ s ≠ "."))).getLastD ""

/-- Archive construction of _write_in_instance (docker.py lines 253 to 260):
a single TarInfo named after the final segment of instance_file_path, with
the header size set to the byte length of the payload, holding the payload.
The data argument models lines.encode(utf-8), the byte content. -/
def writeInInstanceArchive (instanceFilePath : String) (data : List Nat) :
    List TarEntry :=
  [{ name := [pathName instanceFilePath], size := data.length, data := data }]

/-- Backend calls issued by the DockerClient constructor that the claims are
about, recorded in issue order: client.images.remove, client.images.build and
client.containers.run. -/
inductive DockerAction where
  | removeImage (name : String)
  | buildImage (name : String)
  | runContainer (image : String)
deriving DecidableEq

/-- Outcome of the client.images.build call (docker.py line 144): success, a
docker.errors.BuildError, or a docker.errors.APIError. -/
inductive BuildOutcome where
  | success
  | buildError
  | apiError
deriving DecidableEq

/-- Model of _image_exists (docker.py lines 272 to 279): the backend image
store is modelled as the list of locally present image names, and the
client.images.get probe succeeds exactly when the name is present. The
APIError branch is not modelled (it would abort construction either way). -/
def imageExists (images : List String) (name : String) : Bool :=
  decide (name ∈ images)

/-- Effect of client.images.remove(image, force=True) on the modelled image
store: the named image is no longer present. -/
def removeImageFromStore (images : List String) (name : String) : List String :=
  images.filter (fun n => decide (n ≠ name))

/-- Image name derived by the constructor when no image was supplied
(docker.py line 122): DOCKER_IMAGE_PREFIX, a colon, then the Ubuntu and ROS
distro pair. -/
def derivedImageName (ubuntuDistro rosDistro : String) : String :=
  "colcon-in-container:" ++ ubuntuDistro ++ "-" ++ rosDistro

/-- Own-image branch of the constructor (docker.py lines 112 to 159), taken
when cli_args.docker_image is empty. Steps, in source order: if a forced
build was requested and the derived image exists, remove it; if the (possibly
just removed) image does not exist, build it (BuildError raises
ProviderNotConfiguredError, APIError raises ProviderClientError, and after a
reported-successful build the existence re-check raises ProviderClientError
when the image is still absent); otherwise reuse the existing image. Returns
the backend calls issued, in order, and the resulting image name or error. -/
def resolveOwnImage (images : List String) (forceBuild : Bool)
    (ubuntuDistro rosDistro : String) (buildOutcome : BuildOutcome) :
    List DockerAction × Except PyError String :=
  let dockerImage := derivedImageName ubuntuDistro rosDistro
  let step1 :=
    if forceBuild && imageExists images dockerImage then
      ([DockerAction.removeImage dockerImage], removeImageFromStore images dockerImage)
    else ([], images)
  let acts1 := step1.1
  let images1 := step1.2
  if !(imageExists images1 dockerImage) then
    match buildOutcome with
    | BuildOutcome.buildError =>
        (acts1 ++ [DockerAction.buildImage dockerImage],
         Except.error (PyError.providerNotConfiguredError "Image build error"))
    | BuildOutcome.apiError =>
        (acts1 ++ [DockerAction.buildImage dockerImage],
         Except.error (PyError.providerClientError "Docker API error"))
    | BuildOutcome.success =>
        let images2 := dockerImage :: images1
        if !(imageExists images2 dockerImage) then
          (acts1 ++ [DockerAction.buildImage dockerImage],
           Except.error (PyError.providerClientError "Docker image build failed, aborting"))
        else
          (acts1 ++ [DockerAction.buildImage dockerImage], Except.ok dockerImage)
  else (acts1, Except.ok dockerImage)

/-- User-image branch of the constructor (docker.py lines 92 to 107), taken
when cli_args.docker_image is non-empty: a forced-build request only logs a
warning, then the image is required to exist locally (absence raises
ProviderClientError); no remove or build call is ever issued on this branch.
Returns the warnings logged, the backend calls issued and the chosen image
name or error. -/
def resolveUserImage (images : List String) (forceBuild : Bool)
    (userImage : String) :
    List String × List DockerAction × Except PyError String :=
  let warnings :=
    if forceBuild then
      ["requested forced (re)build of 3rd party image, ignoring request"]
    else []
  if !(imageExists images userImage) then
    (warnings, [],
     Except.error (PyError.providerClientError
       ("No such Docker image " ++ userImage ++ ", aborting")))
  else (warnings, [], Except.ok userImage)

/-- Image-resolution and instance-creation phase of the DockerClient
constructor (docker.py lines 92 to 175): branch on whether the caller supplied
an image name (python truthiness of cli_args.docker_image: non-empty string);
on success the container is started from the resolved image
(client.containers.run, recorded as a runContainer action); on error the
constructor aborts and no container is started. Returns warnings, the backend
calls issued in order, and the resolved image or the raised error. -/
def dockerCtorImagePhase (images : List String) (userImage : String)
    (forceBuild : Bool) (ubuntuDistro rosDistro : String)
    (buildOutcome : BuildOutcome) :
    List String × List DockerAction × Except PyError String :=
  if userImage ≠ "" then
    let r := resolveUserImage images forceBuild userImage
    match r.2.2 with
    | Except.error e => (r.1, r.2.1, Except.error e)
    | Except.ok img => (r.1, r.2.1 ++ [DockerAction.runContainer img], Except.ok img)
  else
    let r := resolveOwnImage images forceBuild ubuntuDistro rosDistro buildOutcome
    match r.2 with
    | Except.error e => ([], r.1, Except.error e)
    | Except.ok img => ([], r.1 ++ [DockerAction.runContainer img], Except.ok img)

/-- Model of DockerClient._check_instance (docker.py lines 208 to 210): a
missing or unset container attribute raises ProviderNotConfiguredError. The
container handle is modelled as an optional container name; none covers both
the attribute being absent and it being None (after _clean_instance). -/
def checkInstance (container : Option String) : Except PyError Unit :=
  match container with
  | none => Except.error (PyError.providerNotConfiguredError "No running container")
  | some _ => Except.ok ()

/-- Backend calls of the execution triad used by execute_command:
client.api.exec_create, client.api.exec_start and client.api.exec_inspect. -/
inductive ExecAction where
  | execCreate (cmd : String)
  | execStart
  | execInspect
deriving DecidableEq

/-- Model of DockerClient.execute_command (docker.py lines 223 to 237): first
_check_instance, then the create/start/inspect triad against the backend,
returning the ExitCode reported by exec_inspect (modelled by the backendExit
argument). Returns the backend calls issued, in order, paired with the exit
code or the raised error; when the instance check fails no backend call is
made. -/
def executeCommand (container : Option String) (command : String)
    (backendExit : Int) : List ExecAction × Except PyError Int :=
  match checkInstance container with
  | Except.error e => ([], Except.error e)
  | Except.ok _ =>
      ([ExecAction.execCreate command, ExecAction.execStart, ExecAction.execInspect],
       Except.ok backendExit)

/-- Backend call recorded when _recursive_put pushes the constructed archive
to the container. -/
inductive TransferAction where
  | putArchive (remotePath : String)
deriving DecidableEq

/-- Model of _recursive_put (docker.py lines 301 to 324). The isdirNorm
argument is the host-filesystem oracle for
os.path.isdir(os.path.normpath(local_path)) (normpath does not change which
file a path denotes, so isdirNorm localPath is exactly whether local_path
denotes a directory). When the check fails, NotADirectoryError is raised and
no archive is built or pushed. Otherwise the directory snapshot is archived
in memory (contents abstracted away) and pushed via container.put_archive,
whose False return raises ProviderClientError. -/
def recursivePut (isdirNorm : String → Bool) (putArchiveOk : Bool)
    (localPath remotePath : String) (_excludeParent : Bool) :
    List TransferAction × Except PyError Unit :=
  if !(isdirNorm localPath) then
    ([], Except.error (PyError.notADirectoryError
      "local_path parameter must be a directory"))
  else if putArchiveOk then
    ([TransferAction.putArchive remotePath], Except.ok ())
  else
    ([TransferAction.putArchive remotePath],
     Except.error (PyError.providerClientError "put_archive failed"))

/-- Loop of BuildInContainerVerb._build over the in-instance commands
(build_in_container.py lines 80 to 83): the first non-zero exit code is
returned immediately; none means every command succeeded. -/
def runCommands : List Int → Option Int
  | [] => none
  | e :: rest => if e ≠ 0 then some e else runCommands rest

/-- Model of BuildInContainerVerb._build (build_in_container.py lines 66 to
94): run the rosdep install command then the colcon build command, returning
the first non-zero exit code; then download /ws/install and /ws/build in that
order, converting a FileNotFoundInInstanceError from either download (the
corresponding Found argument being false) into exit code 1; return 0 when
everything succeeded. -/
def buildVerbBuild (rosdepExit colconExit : Int)
    (installFound buildFound : Bool) : Int :=
  match runCommands [rosdepExit, colconExit] with
  | some e => e
  | none =>
    if installFound then
      if buildFound then 0 else 1
    else 1

/-- Model of the exit code returned by BuildInContainerVerb.main
(build_in_container.py lines 96 to 125): main returns build_exit_code, the
value of _build, unchanged; the optional diagnostic shell sessions do not
alter it. -/
def buildVerbMain (rosdepExit colconExit : Int)
    (installFound buildFound : Bool) : Int :=
  buildVerbBuild rosdepExit colconExit installFound buildFound

/-- Lookup of ProviderFactory._providers.get(name)
(provider_factory.py line 46): the registry is modelled as an association
list from backend name to provider constructor, searched front to back. -/
def lookupRegistered {A B : Type} :
    List (String × (A → B)) → String → Option (A → B)
  | [], _ => none
  | p :: rest, name => if p.1 = name then some p.2 else lookupRegistered rest name

/-- Model of ProviderFactory.create (provider_factory.py lines 43 to 49): an
unregistered name raises ProviderNotRegisteredError with that name; a
registered name yields the registered constructor applied to the given
arguments. -/
def factoryCreate {A B : Type} (registry : List (String × (A → B)))
    (name : String) (cliArgs : A) : Except PyError B :=
  match lookupRegistered registry name with
  | none => Except.error (PyError.providerNotRegisteredError name)
  | some ctor => Except.ok (ctor cliArgs)

end ColconInContainer

namespace ColconInContainer

/-- Removing an image from the store makes the existence probe fail. -/
theorem imageExistsRemove (images : List String) (name : String) :
    imageExists (removeImageFromStore images name) name = false := by
  simp [imageExists, removeImageFromStore, List.mem_filter]

/-- Every write performed by a data-filtered extraction lies inside the
destination root. -/
theorem extractAllFilteredConfined (dest : List String) (entries : List TarEntry)
    (w : List String × List Nat) (hw : w ∈ (extractAll true dest entries).1) :
    insideDest dest w.1 = true := by
  induction entries with
  | nil => simp [extractAll] at hw
  | cons e rest ih =>
    by_cases h : insideDest dest (destFinalPath dest (resolveEntryPath e.name)) = true
    · rw [extractAll] at hw
      simp only [h, Bool.not_true, Bool.and_false] at hw
      rcases List.mem_cons.mp hw with h1 | h2
      · rw [h1]
        exact h
      · exact ih h2
    · rw [extractAll] at hw
      simp only [Bool.not_eq_true] at h
      simp [h] at hw

/-- C2 counterexample: the claim quantifies over every runtime, but on a
runtime older than Python 3.12 the extraction step of _recursive_get runs
tarfile.extractall without any filter, so an archive member named
../../etc/passwd is written at home/etc/passwd, outside the destination root
home/user/dest. -/
theorem unfilteredTraversalEscapes :
    recursiveGetExtract false ["home", "user", "dest"]
        [{ name := ["..", "..", "etc", "passwd"], size := 4, data := [1, 2, 3, 4] }] =
      ([(["home", "etc", "passwd"], [1, 2, 3, 4])], none) ∧
    insideDest ["home", "user", "dest"] ["home", "etc", "passwd"] = false := by
  decide

/-- C2 (amended): when the runtime applies the data extraction filter (Python
3.12 or newer), every write performed by the extraction step of _recursive_get
stays inside the destination root; an entry resolving outside it raises
OutsideDestinationError instead of being written. -/
theorem filteredGetConfinedToDest (dest : List String) (entries : List TarEntry)
    (w : List String × List Nat)
    (hw : w ∈ (recursiveGetExtract true dest entries).1) :
    insideDest dest w.1 = true := by
  rw [recursiveGetExtract] at hw
  simp only [if_pos] at hw
  exact extractAllFilteredConfined dest entries w hw

/-- Witness for C2 at a concrete archive: a single well-behaved entry f.txt is
written at d/f.txt, inside destination d. -/
theorem filteredGetConfinedToDestWitness :
    (["d", "f.txt"], [7]) ∈
      (recursiveGetExtract true ["d"]
        [{ name := ["f.txt"], size := 1, data := [7] }]).1 ∧
    insideDest ["d"] ["d", "f.txt"] = true :=
  ⟨by decide,
   filteredGetConfinedToDest ["d"]
     [{ name := ["f.txt"], size := 1, data := [7] }] (["d", "f.txt"], [7]) (by decide)⟩

/-- C3: packing a single inline file yields an archive with exactly one entry,
named after the final segment of the path, whose recorded size is the byte
length of the content; extracting that archive under a destination dest yields
exactly one write, at dest/(final segment), with exactly the packed content.
The hypotheses state that the final path segment is an ordinary file name
(non-empty and not a dot component), which holds for every file the source
ever packs this way. -/
theorem singleFilePackRoundTrip (p : String) (data : List Nat) (dest : List String)
    (h1 : pathName p ≠ "") (h2 : pathName p ≠ ".") (h3 : pathName p ≠ "..") :
    writeInInstanceArchive p data =
      [{ name := [pathName p], size := data.length, data := data }] ∧
    recursiveGetExtract true dest (writeInInstanceArchive p data) =
      ([(dest ++ [pathName p], data)], none) := by
  refine ⟨rfl, ?_⟩
  have hresolve : resolveEntryPath [pathName p] = (0, [pathName p]) := by
    simp [resolveEntryPath, resolveSegments, h1, h2, h3]
  have htarget : destFinalPath dest (0, [pathName p]) = dest ++ [pathName p] := by
    simp [destFinalPath]
  have hinside : insideDest dest (dest ++ [pathName p]) = true := by
    simp [insideDest, List.isPrefixOf_iff_prefix]
  simp [recursiveGetExtract, extractAll, writeInInstanceArchive, hresolve,
    htarget, hinside]

/-- Witness for C3 at the concrete input of the spec: path a/b.txt with the
five bytes of hello, extracted under destination D. -/
theorem singleFilePackRoundTripWitness :
    pathName "a/b.txt" ≠ "" ∧
    writeInInstanceArchive "a/b.txt" [104, 101, 108, 108, 111] =
      [{ name := [pathName "a/b.txt"], size := 5,
         data := [104, 101, 108, 108, 111] }] ∧
    recursiveGetExtract true ["D"]
        (writeInInstanceArchive "a/b.txt" [104, 101, 108, 108, 111]) =
      ([(["D"] ++ [pathName "a/b.txt"], [104, 101, 108, 108, 111])], none) := by
  refine ⟨by decide, ?_, ?_⟩
  · exact (singleFilePackRoundTrip "a/b.txt" [104, 101, 108, 108, 111] ["D"]
      (by decide) (by decide) (by decide)).1
  · exact (singleFilePackRoundTrip "a/b.txt" [104, 101, 108, 108, 111] ["D"]
      (by decide) (by decide) (by decide)).2

/-- C1: the status wait is claimed to raise its timeout error once the deadline
start time + timeout has passed, so a wait with timeout 2 on a never-matching
instance should time out after roughly 2 time units. The code instead compares
the elapsed time against the absolute deadline value t_start + timeout, so at
start time 10 with timeout 2 it sleeps 12 times (12 time units, not roughly 2)
before raising the timeout error that reports the last observed status. -/
theorem waitTimeoutLoopsPastDeadline :
    waitForContainerStatus (some (fun _ => "created")) ["running"] 10 2 =
      ⟨WaitOutcome.timeoutClientError "created", 13, 12⟩ ∧ (12 : Nat) ≠ 2 := by
  decide

/-- C4: a negative timeout is rejected with a ValueError (the invalid-argument
error) before any container.reload() status refresh happens (reloads = 0), and
this error is a different constructor from the timeout error. -/
theorem waitNegativeTimeoutRejected (trace : Nat → String) (sset : List String)
    (tStart : Nat) (timeout : Int) (h : timeout < 0) :
    waitForContainerStatus (some trace) sset tStart timeout =
      ⟨WaitOutcome.valueError "timeout cannot be negative", 0, 0⟩ ∧
    ∀ s, WaitOutcome.valueError "timeout cannot be negative" ≠
      WaitOutcome.timeoutClientError s := by
  refine ⟨?_, ?_⟩
  · simp [waitForContainerStatus, h]
  · intro s
    simp

/-- C5: when no image name is supplied and the derived image already exists,
a construction without the forced-rebuild flag issues no backend image call
at all (in particular no build) and reuses the image, while a construction
with the forced-rebuild flag removes the existing image as its first backend
call, before any build is attempted. -/
theorem ownImageReuseAndForcedRebuild (images : List String)
    (ubuntuDistro rosDistro : String) (b : BuildOutcome)
    (h : imageExists images (derivedImageName ubuntuDistro rosDistro) = true) :
    resolveOwnImage images false ubuntuDistro rosDistro b =
      ([], Except.ok (derivedImageName ubuntuDistro rosDistro)) ∧
    ∃ rest, (resolveOwnImage images true ubuntuDistro rosDistro b).1 =
      DockerAction.removeImage (derivedImageName ubuntuDistro rosDistro) :: rest := by
  have hmem : derivedImageName ubuntuDistro rosDistro ∈ images := by
    simpa [imageExists] using h
  have hnot : derivedImageName ubuntuDistro rosDistro ∉
      removeImageFromStore images (derivedImageName ubuntuDistro rosDistro) := by
    simp [removeImageFromStore, List.mem_filter]
  constructor
  · simp [resolveOwnImage, imageExists, hmem]
  · refine ⟨[DockerAction.buildImage (derivedImageName ubuntuDistro rosDistro)], ?_⟩
    cases b <;> simp [resolveOwnImage, imageExists, hmem, hnot]

/-- Witness for C5 at a concrete store holding the derived jammy-humble
image. -/
theorem ownImageReuseAndForcedRebuildWitness :
    imageExists ["colcon-in-container:jammy-humble"]
      (derivedImageName "jammy" "humble") = true ∧
    resolveOwnImage ["colcon-in-container:jammy-humble"] false "jammy" "humble"
        BuildOutcome.success =
      ([], Except.ok (derivedImageName "jammy" "humble")) ∧
    ∃ rest, (resolveOwnImage ["colcon-in-container:jammy-humble"] true "jammy"
        "humble" BuildOutcome.success).1 =
      DockerAction.removeImage (derivedImageName "jammy" "humble") :: rest := by
  refine ⟨by decide, ?_, ?_⟩
  · exact (ownImageReuseAndForcedRebuild ["colcon-in-container:jammy-humble"]
      "jammy" "humble" BuildOutcome.success (by decide)).1
  · exact (ownImageReuseAndForcedRebuild ["colcon-in-container:jammy-humble"]
      "jammy" "humble" BuildOutcome.success (by decide)).2

/-- C6: with a caller-supplied image name, a locally absent image makes the
constructor fail with ProviderClientError while issuing no backend call (so
no container is started and nothing is built), and a forced-rebuild request
on this branch is a no-op accompanied by the warning: no remove and no build
call is ever issued, whether or not the image exists. -/
theorem userImageMissingOrForcedRebuild (images : List String)
    (userImage : String) (force : Bool) (ubuntuDistro rosDistro : String)
    (b : BuildOutcome) (hne : userImage ≠ "") :
    (imageExists images userImage = false →
      (dockerCtorImagePhase images userImage force ubuntuDistro rosDistro b).2.2 =
        Except.error (PyError.providerClientError
          ("No such Docker image " ++ userImage ++ ", aborting")) ∧
      (dockerCtorImagePhase images userImage force ubuntuDistro rosDistro b).2.1 = []) ∧
    (force = true →
      (dockerCtorImagePhase images userImage force ubuntuDistro rosDistro b).1 =
        ["requested forced (re)build of 3rd party image, ignoring request"] ∧
      ∀ n, DockerAction.removeImage n ∉
          (dockerCtorImagePhase images userImage force ubuntuDistro rosDistro b).2.1 ∧
        DockerAction.buildImage n ∉
          (dockerCtorImagePhase images userImage force ubuntuDistro rosDistro b).2.1) := by
  constructor
  · intro habs
    simp [dockerCtorImagePhase, hne, resolveUserImage, habs]
  · intro hforce
    subst hforce
    by_cases himg : imageExists images userImage = true
    · simp [dockerCtorImagePhase, hne, resolveUserImage, himg]
    · simp only [Bool.not_eq_true] at himg
      simp [dockerCtorImagePhase, hne, resolveUserImage, himg]

/-- Witness for C6: forced rebuild requested for the absent user image
myimage. -/
theorem userImageMissingOrForcedRebuildWitness :
    ((dockerCtorImagePhase [] "myimage" true "jammy" "humble"
        BuildOutcome.success).2.2 =
      Except.error (PyError.providerClientError
        ("No such Docker image " ++ "myimage" ++ ", aborting")) ∧
     (dockerCtorImagePhase [] "myimage" true "jammy" "humble"
        BuildOutcome.success).2.1 = []) ∧
    ((dockerCtorImagePhase [] "myimage" true "jammy" "humble"
        BuildOutcome.success).1 =
      ["requested forced (re)build of 3rd party image, ignoring request"] ∧
     ∀ n, DockerAction.removeImage n ∉
        (dockerCtorImagePhase [] "myimage" true "jammy" "humble"
          BuildOutcome.success).2.1 ∧
      DockerAction.buildImage n ∉
        (dockerCtorImagePhase [] "myimage" true "jammy" "humble"
          BuildOutcome.success).2.1) :=
  ⟨(userImageMissingOrForcedRebuild [] "myimage" true "jammy" "humble"
      BuildOutcome.success (by decide)).1 (by decide),
   (userImageMissingOrForcedRebuild [] "myimage" true "jammy" "humble"
      BuildOutcome.success (by decide)).2 rfl⟩

/-- C7: with an absent or unset container handle, execute_command raises
ProviderNotConfiguredError and performs no backend execution call. -/
theorem executeWithoutInstanceRejected (command : String) (backendExit : Int) :
    executeCommand none command backendExit =
      ([], Except.error (PyError.providerNotConfiguredError "No running container")) :=
  rfl

/-- C8: when the local path does not denote a directory, _recursive_put fails
with NotADirectoryError and neither builds nor pushes any archive. -/
theorem putNonDirectoryRejected (isdirNorm : String → Bool)
    (putArchiveOk : Bool) (localPath remotePath : String) (ep : Bool)
    (h : isdirNorm localPath = false) :
    recursivePut isdirNorm putArchiveOk localPath remotePath ep =
      ([], Except.error (PyError.notADirectoryError
        "local_path parameter must be a directory")) := by
  simp [recursivePut, h]

/-- Witness for C8: a host filesystem on which the given path is not a
directory. -/
theorem putNonDirectoryRejectedWitness :
    recursivePut (fun _ => false) true "somefile.txt" "/ws" true =
      ([], Except.error (PyError.notADirectoryError
        "local_path parameter must be a directory")) :=
  putNonDirectoryRejected (fun _ => false) true "somefile.txt" "/ws" true rfl

/-- C9: the build driver returns 0 when the in-instance commands succeed and
both artifact downloads succeed; it returns the colcon build command exit
code when that command fails (with rosdep having succeeded); and it returns 1
when an expected artifact path is missing in the instance, converting the
FileNotFoundInInstanceError into exit code 1 rather than propagating it. -/
theorem buildDriverExitCodes (rosdepExit colconExit : Int)
    (installFound buildFound : Bool) :
    (rosdepExit = 0 → colconExit = 0 → installFound = true → buildFound = true →
      buildVerbMain rosdepExit colconExit installFound buildFound = 0) ∧
    (rosdepExit = 0 → colconExit ≠ 0 →
      buildVerbMain rosdepExit colconExit installFound buildFound = colconExit) ∧
    (rosdepExit = 0 → colconExit = 0 →
      (installFound = false ∨ buildFound = false) →
      buildVerbMain rosdepExit colconExit installFound buildFound = 1) := by
  refine ⟨?_, ?_, ?_⟩
  · intro hr hc hi hb
    subst hr; subst hc; subst hi; subst hb
    rfl
  · intro hr hc
    subst hr
    simp [buildVerbMain, buildVerbBuild, runCommands, hc]
  · intro hr hc hor
    subst hr; subst hc
    rcases hor with hi | hb
    · subst hi
      simp [buildVerbMain, buildVerbBuild, runCommands]
    · subst hb
      cases installFound <;> simp [buildVerbMain, buildVerbBuild, runCommands]

/-- Witness for C9 at concrete exit codes: full success gives 0, a colcon
build failure with exit code 7 gives 7, and a missing build artifact after a
successful build gives 1. -/
theorem buildDriverExitCodesWitness :
    buildVerbMain 0 0 true true = 0 ∧
    buildVerbMain 0 7 true true = 7 ∧
    buildVerbMain 0 0 true false = 1 :=
  ⟨(buildDriverExitCodes 0 0 true true).1 rfl rfl rfl rfl,
   (buildDriverExitCodes 0 7 true true).2.1 rfl (by decide),
   (buildDriverExitCodes 0 0 true false).2.2 rfl rfl (Or.inr rfl)⟩

/-- C10: ProviderFactory.create raises ProviderNotRegisteredError for a name
with no registered constructor and constructs nothing, and for a registered
name returns the registered constructor applied to the given arguments. -/
theorem factoryCreateSpec {A B : Type} (registry : List (String × (A → B)))
    (name : String) (cliArgs : A) :
    (lookupRegistered registry name = none →
      factoryCreate registry name cliArgs =
        Except.error (PyError.providerNotRegisteredError name)) ∧
    ∀ ctor, lookupRegistered registry name = some ctor →
      factoryCreate registry name cliArgs = Except.ok (ctor cliArgs) := by
  constructor
  · intro h
    simp [factoryCreate, h]
  · intro ctor h
    simp [factoryCreate, h]

/-- Witness for C10 on a one-entry registry: the unregistered name lxd is
rejected, the registered name docker yields the constructed value. -/
theorem factoryCreateSpecWitness :
    factoryCreate [("docker", fun n => n + 1)] "lxd" (3 : Nat) =
      Except.error (PyError.providerNotRegisteredError "lxd") ∧
    factoryCreate [("docker", fun n => n + 1)] "docker" (3 : Nat) =
      Except.ok 4 :=
  ⟨(factoryCreateSpec [("docker", fun n => n + 1)] "lxd" 3).1 rfl,
   (factoryCreateSpec [("docker", fun n => n + 1)] "docker" 3).2
     (fun n => n + 1) rfl⟩

/-- Witness for C4 at the concrete input of the spec: timeout -1. -/
theorem waitNegativeTimeoutRejectedWitness :
    waitForContainerStatus (some (fun _ => "created")) ["running"] 0 (-1) =
      ⟨WaitOutcome.valueError "timeout cannot be negative", 0, 0⟩ ∧
    ∀ s, WaitOutcome.valueError "timeout cannot be negative" ≠
      WaitOutcome.timeoutClientError s :=
  waitNegativeTimeoutRejected (fun _ => "created") ["running"] 0 (-1) (by decide)

end ColconInContainer
